import Mathlib

/-!
Verification of the RIJIN regime-classification and admission-gating pipeline
(`rijin_config.py`, `rijin_engine.py`, `backtest_rijin.py`).

Modelling conventions:
* Python floats are embedded as rationals (`ℚ`); decimal literals are written
  as exact fractions (1.05 = 21/20, 0.7 = 7/10, ...).
* Timestamps are rationals measured in minutes.  All the verified behaviour is
  intraday (one session), so a `datetime` and its `.time()` coincide; a Python
  `timedelta.total_seconds() / 60` becomes plain subtraction.
* Python dicts keyed by instrument become total functions from `Instrument`
  with pointwise `Function.update`.
* Fields that the source mutates in lockstep (`pending_downgrade` and
  `pending_downgrade_since`) are merged into a single `Option` pair.
* Message strings produced by the source are represented by inductive tags
  carrying the interpolated numeric payloads.
* Uncaught Python exceptions are modelled by an explicit error constructor in
  the result type, paired with the state as mutated up to the raise point.
  Exceptions that the source catches with a blanket `except` are folded into
  the value that the handler returns, exactly as the handler does.
-/

namespace Rijin

/-- The `DayType` enum of `rijin_config.py` (7 members; the v3.1 labels
`LIQUIDITY_SWEEP_TRAP`, `ROTATIONAL_EXPANSION`, `FAST_REGIME_FLIP` mentioned in
`rijin_engine.py` are NOT members of this enum). -/
inductive DayType where
  | CLEAN_TREND
  | NORMAL_TREND
  | EARLY_IMPULSE_SIDEWAYS
  | RANGE_CHOPPY
  | VOLATILITY_SPIKE
  | EXPIRY_DISTORTION
  | UNKNOWN
  deriving DecidableEq

/-- `DAY_TYPE_HIERARCHY` dict of `rijin_config.py` (severity ranks; `UNKNOWN`
has no entry). -/
def DAY_TYPE_HIERARCHY : DayType → Option Nat
  | .CLEAN_TREND => some 1
  | .NORMAL_TREND => some 2
  | .EARLY_IMPULSE_SIDEWAYS => some 3
  | .RANGE_CHOPPY => some 4
  | .EXPIRY_DISTORTION => some 4
  | .VOLATILITY_SPIKE => some 5
  | .UNKNOWN => none

/-- `DAY_TYPE_HIERARCHY.get(day_type, 0)` as used by `update_day_type`. -/
def hierarchyLevel (d : DayType) : Nat := (DAY_TYPE_HIERARCHY d).getD 0

/-- `IMMEDIATE_DOWNGRADE` list of `rijin_config.py`. -/
def IMMEDIATE_DOWNGRADE : List DayType :=
  [.RANGE_CHOPPY, .EXPIRY_DISTORTION, .VOLATILITY_SPIKE]

/-- The mutable state of `DayTypeEngine` relevant to `update_day_type`.
`pending_downgrade`/`pending_downgrade_since` are merged into one field since
the source always assigns and clears them together. -/
structure DayTypeState where
  current_day_type : DayType
  last_check_time : Option ℚ
  pendingDowngrade : Option (DayType × ℚ)
  day_locked : Bool
  deriving DecidableEq

/-- `DayTypeEngine.__init__` / `reset_for_new_day` (the update-relevant fields). -/
def dayTypeReset : DayTypeState :=
  { current_day_type := .UNKNOWN
    last_check_time := none
    pendingDowngrade := none
    day_locked := false }

/-- Messages returned by `update_day_type` (the source formats them as
strings; the downgraded label is the interpolated payload). -/
inductive UpdateMsg where
  | initialClassification (t : DayType)
  | confirmedDowngrade (t : DayType)
  deriving DecidableEq

/-- Outcome of one `update_day_type` call.  `.ok updated msg` is a normal
return; `.attrError` is the uncaught `AttributeError` raised when the
immediate-downgrade branch evaluates the literal list
`[DayType.RANGE_CHOPPY, DayType.LIQUIDITY_SWEEP_TRAP]` — the second name is
not a member of the `DayType` enum of `rijin_config.py`. -/
inductive UpdateResult where
  | ok (updated : Bool) (msg : Option UpdateMsg)
  | attrError
  deriving DecidableEq

/-- `DayTypeEngine.update_day_type(new_type, reason, current_time)`
(`rijin_engine.py` lines 518-575).  Returns the state as left by the call and
the outcome.  In the immediate-downgrade branch the source first assigns
`current_day_type` and `last_check_time`, then crashes with `AttributeError`
while evaluating the day-lock test, so `day_locked` is never assigned there
and no message is returned. -/
def update_day_type (s : DayTypeState) (newType : DayType) (t : ℚ) :
    DayTypeState × UpdateResult :=
  if s.day_locked then (s, .ok false none)
  else if s.current_day_type = .UNKNOWN then
    ({ s with current_day_type := newType, last_check_time := some t },
     .ok true (some (.initialClassification newType)))
  else if hierarchyLevel newType ≤ hierarchyLevel s.current_day_type then
    ({ s with pendingDowngrade := none }, .ok false none)
  else if newType ∈ IMMEDIATE_DOWNGRADE then
    ({ s with current_day_type := newType, last_check_time := some t }, .attrError)
  else
    match s.pendingDowngrade with
    | some (p, since) =>
      if p = newType then
        if 50 ≤ t - since then
          ({ s with current_day_type := newType, last_check_time := some t,
                    pendingDowngrade := none },
           .ok true (some (.confirmedDowngrade newType)))
        else (s, .ok false none)
      else ({ s with pendingDowngrade := some (newType, t) }, .ok false none)
    | none => ({ s with pendingDowngrade := some (newType, t) }, .ok false none)

/-- One step of a session-long sequence of `update_day_type` calls. -/
def dayTypeStep (s : DayTypeState) (e : DayType × ℚ) : DayTypeState :=
  (update_day_type s e.1 e.2).1

/-- Running a sequence of `update_day_type` calls from a fresh session. -/
def runDayTypeUpdates (events : List (DayType × ℚ)) : DayTypeState :=
  events.foldl dayTypeStep dayTypeReset

/-- A 5-minute OHLCV bar (`candles_5m` entries; `date` in minutes). -/
structure Candle where
  date : ℚ
  «open» : ℚ
  high : ℚ
  low : ℚ
  close : ℚ
  volume : ℚ
  deriving DecidableEq

/-- The `indicators` dict consumed by the engine (keys `atr`, `rsi`, `ema20`,
`slope`). -/
structure Indicators where
  atr : ℚ
  rsi : ℚ
  ema20 : ℚ
  slope : ℚ
  deriving DecidableEq

/-- Trade direction strings `"BUY"` / `"SELL"`. -/
inductive Direction where
  | BUY
  | SELL
  deriving DecidableEq

/-- Python's `l[-n:]`: the last `n` elements of a list. -/
def lastN {α : Type} (l : List α) (n : ℕ) : List α := l.drop (l.length - n)

/-- Python's `max(...)` over a price list (only applied to nonempty lists;
the `[]` value is junk, `max` of an empty sequence raises in Python). -/
def listMax : List ℚ → ℚ
  | [] => 0
  | x :: xs => xs.foldl max x

/-- Python's `min(...)` over a price list (only applied to nonempty lists). -/
def listMin : List ℚ → ℚ
  | [] => 0
  | x :: xs => xs.foldl min x

/-- The mutable state of `ImpulseDetectionEngine`. -/
structure ImpulseState where
  impulse_origin : Option ℚ
  impulse_atr : Option ℚ
  impulse_direction : Option Direction
  impulse_time : Option ℚ
  swing_high : Option ℚ
  swing_low : Option ℚ
  deriving DecidableEq

/-- `ImpulseDetectionEngine.get_expansion_from_impulse(current_price)`
(`rijin_engine.py` lines 688-705): 0 when `impulse_origin` or `impulse_atr`
is `None`, else `abs(current_price - impulse_origin) / impulse_atr`.  The
`ZeroDivisionError` for `impulse_atr == 0` is caught and mapped to `0.0`,
which coincides with rational division by zero in the embedding. -/
def get_expansion_from_impulse (e : ImpulseState) (current_price : ℚ) : ℚ :=
  match e.impulse_origin, e.impulse_atr with
  | some origin, some atr => |current_price - origin| / atr
  | _, _ => 0

/-- `ImpulseDetectionEngine.is_impulse_active()`. -/
def is_impulse_active (e : ImpulseState) : Bool := e.impulse_origin.isSome

/-- Python truthiness of the `impulse_engine` argument combined with
`is_impulse_active()` (`if impulse_engine and impulse_engine.is_impulse_active()`). -/
def impulse_engine_active : Option ImpulseState → Bool
  | some e => is_impulse_active e
  | none => false

/-- Session phase markers.  The source uses the strings `"EARLY"`, `"MID"`,
`"LATE"`, `"NO_IMPULSE"` (no impulse yet) and `"UNKNOWN"` (error fail-safe). -/
inductive Phase where
  | EARLY
  | MID
  | LATE
  | NO_IMPULSE
  | UNKNOWN
  deriving DecidableEq

/-- `SESSION_TREND_PHASE['early']['max_expansion_atr']` (v3.0.1: 1.2). -/
def EARLY_MAX_EXPANSION_ATR : ℚ := 6/5

/-- `SESSION_TREND_PHASE['mid']['max_expansion_atr']` (2.0). -/
def MID_MAX_EXPANSION_ATR : ℚ := 2

/-- `SESSION_TREND_PHASE['mid']['conditions']['max_pullback_atr']` (0.5). -/
def MID_MAX_PULLBACK_ATR : ℚ := 1/2

/-- `SESSION_TREND_PHASE['mid']['conditions']['min_rsi']` (50). -/
def MID_MIN_RSI : ℚ := 50

/-- `SESSION_TREND_PHASE['mid']['conditions']['require_structure']`. -/
def MID_REQUIRE_STRUCTURE : Bool := true

/-- `TrendPhaseEngine.get_phase(expansion_multiple)` (`rijin_engine.py`
lines 751-762). -/
def get_phase (expansion_multiple : ℚ) : Phase :=
  if expansion_multiple < EARLY_MAX_EXPANSION_ATR then .EARLY
  else if expansion_multiple ≤ MID_MAX_EXPANSION_ATR then .MID
  else .LATE

/-- Rejection reasons produced by the phase filter (string templates in the
source; numeric payloads are the interpolated values). -/
inductive PhaseReason where
  | midPullbackTooDeep (depth cap : ℚ)
  | midRsiNotConfirming (rsi : ℚ)
  | midStructureBroken
  | midCheckError
  | latePhaseExhaustion (expansion : ℚ)
  deriving DecidableEq

/-- `TrendPhaseEngine.check_mid_phase_conditions(candles_5m, indicators,
direction)`.  The `except` branch (reason "MID phase: Check error") is reached
when an `IndexError` fires: empty candle list, or fewer than 3 bars at the
structure check. -/
def check_mid_phase_conditions (candles_5m : List Candle) (indicators : Indicators)
    (direction : Direction) : Bool × Option PhaseReason :=
  match candles_5m.getLast? with
  | none => (false, some .midCheckError)
  | some last =>
    let price := last.close
    let recent := lastN candles_5m 5
    let recent_high := listMax (recent.map (·.high))
    let recent_low := listMin (recent.map (·.low))
    let pullback_depth :=
      match direction with
      | .BUY => recent_high - price
      | .SELL => price - recent_low
    let max_pullback := MID_MAX_PULLBACK_ATR * indicators.atr
    if max_pullback < pullback_depth then
      (false, some (.midPullbackTooDeep pullback_depth max_pullback))
    else if direction = .BUY ∧ indicators.rsi < MID_MIN_RSI then
      (false, some (.midRsiNotConfirming indicators.rsi))
    else if direction = .SELL ∧ 100 - MID_MIN_RSI < indicators.rsi then
      (false, some (.midRsiNotConfirming indicators.rsi))
    else if MID_REQUIRE_STRUCTURE then
      match lastN candles_5m 3 with
      | [a, b, c] =>
        match direction with
        | .BUY =>
          if b.low ≥ a.low ∧ c.low ≥ b.low then (true, none)
          else (false, some .midStructureBroken)
        | .SELL =>
          if b.high ≤ a.high ∧ c.high ≤ b.high then (true, none)
          else (false, some .midStructureBroken)
      | _ => (false, some .midCheckError)
    else (true, none)

/-- `TrendPhaseEngine.is_mode_f_allowed(candles_5m, indicators, direction,
impulse_engine)` (`rijin_engine.py` lines 820-863).  Returns
`(allowed, reason, phase, expansion)`.  With no active impulse it returns the
neutral `(True, None, "NO_IMPULSE", 0.0)`; an empty candle list raises
`IndexError`, caught by the method's blanket except → `(True, None,
"UNKNOWN", 0.0)`. -/
def is_mode_f_allowed (candles_5m : List Candle) (indicators : Indicators)
    (direction : Direction) (impulse_engine : Option ImpulseState) :
    Bool × Option PhaseReason × Phase × ℚ :=
  match impulse_engine with
  | some e =>
    if is_impulse_active e then
      match candles_5m.getLast? with
      | none => (true, none, .UNKNOWN, 0)
      | some last =>
        let expansion := get_expansion_from_impulse e last.close
        match get_phase expansion with
        | .EARLY => (true, none, .EARLY, expansion)
        | .MID =>
          let r := check_mid_phase_conditions candles_5m indicators direction
          if r.1 then (true, none, .MID, expansion)
          else (false, r.2, .MID, expansion)
        | ph => (false, some (.latePhaseExhaustion expansion), ph, expansion)
    else (true, none, .NO_IMPULSE, 0)
  | none => (true, none, .NO_IMPULSE, 0)

/-- `EXECUTION_GATES['exhaustion_atr_multiple']` (1.5). -/
def EXHAUSTION_ATR_MULTIPLE : ℚ := 3/2

/-- `EXECUTION_GATES['exhaustion_day_range_pct']` (0.70). -/
def EXHAUSTION_DAY_RANGE_PCT : ℚ := 7/10

/-- Gate-1 rejection reason (fallback branch): distance from the session
extreme and the threshold it exceeded. -/
inductive Gate1Reason where
  | moveExhaustedFromExtreme (distance threshold : ℚ)
  deriving DecidableEq

/-- `ExecutionGates.gate_1_move_exhaustion(candles_5m, indicators, direction,
impulse_engine)` (`rijin_engine.py` lines 874-928).  In the impulse-active
branch the source computes the expansion and then evaluates
`hasattr(self, '_day_type_override')`; `self` is not in scope in this
staticmethod, the resulting `NameError` is swallowed by the blanket
`except Exception` ("allow on error"), so the gate returns `(True, None)`
unconditionally there and the exhaustion comparison is unreachable.  An empty
candle list raises `IndexError` on `candles_5m[-1]`, likewise caught. -/
def gate_1_move_exhaustion (candles_5m : List Candle) (indicators : Indicators)
    (direction : Direction) (impulse_engine : Option ImpulseState) :
    Bool × Option Gate1Reason :=
  match candles_5m.getLast? with
  | none => (true, none)
  | some last =>
    let price := last.close
    if impulse_engine_active impulse_engine then
      (true, none)
    else
      let day_high := listMax (candles_5m.map (·.high))
      let day_low := listMin (candles_5m.map (·.low))
      let day_range := day_high - day_low
      let atr_threshold := EXHAUSTION_ATR_MULTIPLE * indicators.atr
      let range_threshold := EXHAUSTION_DAY_RANGE_PCT * day_range
      match direction with
      | .BUY =>
        let distance_from_low := price - day_low
        let threshold := min atr_threshold range_threshold
        if threshold < distance_from_low then
          (false, some (.moveExhaustedFromExtreme distance_from_low threshold))
        else (true, none)
      | .SELL =>
        let distance_from_high := day_high - price
        let threshold := min atr_threshold range_threshold
        if threshold < distance_from_high then
          (false, some (.moveExhaustedFromExtreme distance_from_high threshold))
        else (true, none)

/-- Reasons recorded by `SystemStopManager` (string templates in the source;
the hostile day type is the interpolated payload). -/
inductive StopReason where
  | marketConditionsHostile (d : DayType)
  | threeConsecutiveBlocks
  | twoStopLossesAfterCutoff
  | manual
  deriving DecidableEq

/-- The mutable state of `SystemStopManager`. -/
structure SystemStopState where
  stopped : Bool
  stop_reason : Option StopReason
  consecutive_blocks : ℕ
  sl_count_after_cutoff : ℕ
  deriving DecidableEq

/-- `SystemStopManager.__init__` / `reset_for_new_day`. -/
def systemStopReset : SystemStopState :=
  { stopped := false, stop_reason := none, consecutive_blocks := 0,
    sl_count_after_cutoff := 0 }

/-- `SYSTEM_STOP_TRIGGERS['consecutive_blocks']` (3). -/
def STOP_CONSECUTIVE_BLOCKS : ℕ := 3

/-- `SYSTEM_STOP_TRIGGERS['sl_count_after_time']` (2). -/
def STOP_SL_COUNT_AFTER_TIME : ℕ := 2

/-- `SYSTEM_STOP_TRIGGERS['sl_after_time']` (11:30, minute 690). -/
def STOP_SL_AFTER_TIME : ℚ := 690

/-- `SystemStopManager.register_block()`. -/
def register_block (s : SystemStopState) : SystemStopState :=
  { s with consecutive_blocks := s.consecutive_blocks + 1 }

/-- `SystemStopManager.reset_consecutive_blocks()`. -/
def reset_consecutive_blocks (s : SystemStopState) : SystemStopState :=
  { s with consecutive_blocks := 0 }

/-- `SystemStopManager.register_sl(timestamp)`. -/
def register_sl (s : SystemStopState) (timestamp : ℚ) : SystemStopState :=
  if STOP_SL_AFTER_TIME < timestamp then
    { s with sl_count_after_cutoff := s.sl_count_after_cutoff + 1 }
  else s

/-- Outcome of one `check_stop_conditions` call: a normal `(should_stop,
reason)` return, or the uncaught `AttributeError`. -/
inductive StopCheckOutcome where
  | result (should_stop : Bool) (reason : Option StopReason)
  | attrError
  deriving DecidableEq

/-- `SystemStopManager.check_stop_conditions(day_type)` (`rijin_engine.py`
lines 1211-1237).  When already stopped it returns `(True, stop_reason)`.
Otherwise the first trigger test evaluates the literal list
`[DayType.RANGE_CHOPPY, DayType.LIQUIDITY_SWEEP_TRAP]`;
`DayType.LIQUIDITY_SWEEP_TRAP` is not a member of the `DayType` enum, so the
call raises `AttributeError` (this method has no `except`) before any of the
three trigger conditions can be consulted or `stopped` can be set. -/
def check_stop_conditions (s : SystemStopState) (_day_type : DayType) :
    SystemStopState × StopCheckOutcome :=
  if s.stopped then (s, .result true s.stop_reason)
  else (s, .attrError)

/-- `SystemStopManager.force_stop(reason)` — the only code path that sets
`stopped`. -/
def force_stop (s : SystemStopState) (reason : StopReason) : SystemStopState :=
  { s with stopped := true, stop_reason := some reason }

/-- Backtest instruments are dict keys (strings). -/
abbrev Instrument := String

/-- `CONSECUTIVE_LOSS_LIMIT['max_consecutive_losses']` (2). -/
def MAX_CONSECUTIVE_LOSSES : ℕ := 2

/-- `CONSECUTIVE_LOSS_LIMIT['pause_duration_minutes']` (60). -/
def PAUSE_DURATION_MINUTES : ℚ := 60

/-- `CONSECUTIVE_LOSS_LIMIT['reset_on_win']` (True). -/
def RESET_ON_WIN : Bool := true

/-- The consecutive-loss tracking state of `RijinBacktest`
(`self.consecutive_losses` and `self.pause_until`, per instrument;
`.get(instrument, 0)` defaults are the function's total values). -/
structure LossBreakerState where
  consecutive_losses : Instrument → ℕ
  pause_until : Instrument → Option ℚ

/-- The backtest's initial breaker state (counters 0, no pauses). -/
def lossBreakerReset : LossBreakerState :=
  { consecutive_losses := fun _ => 0, pause_until := fun _ => none }

/-- Trade exit outcomes (`exit_type` strings `'SL'` / `'TARGET'`). -/
inductive ExitType where
  | SL
  | TARGET
  deriving DecidableEq

/-- The consecutive-loss tracking block at the end of
`RijinBacktest._execute_trade` (`backtest_rijin.py` lines 743-763): a
stop-loss close increments the instrument's counter and, once the counter
reaches the configured limit, records the exit-candle time as the pause
start; a target close (with `reset_on_win` enabled) resets the counter. -/
def update_consecutive_loss_tracking (s : LossBreakerState) (instrument : Instrument)
    (exit_type : ExitType) (exit_time : ℚ) : LossBreakerState :=
  match exit_type with
  | .SL =>
    let n := s.consecutive_losses instrument + 1
    let s1 : LossBreakerState :=
      { s with consecutive_losses := Function.update s.consecutive_losses instrument n }
    if MAX_CONSECUTIVE_LOSSES ≤ n then
      { s1 with pause_until := Function.update s1.pause_until instrument (some exit_time) }
    else s1
  | .TARGET =>
    if RESET_ON_WIN then
      { s with consecutive_losses := Function.update s.consecutive_losses instrument 0 }
    else s

/-- Python `int(q)` — truncation toward zero (used for the reported
remaining minutes). -/
def pyInt (q : ℚ) : ℤ := q.num / q.den

/-- The consecutive-loss-protection block at the top of
`RijinBacktest._apply_rijin_gates` (`backtest_rijin.py` lines 628-640),
evaluated before every gate: while `current_time` is less than
`pause_duration_minutes` past the recorded pause start, the candidate entry
is rejected with the remaining minutes reported; an elapsed pause is cleared
and the counter reset to 0. -/
def consecutive_loss_protection_check (s : LossBreakerState) (instrument : Instrument)
    (current_time : ℚ) : LossBreakerState × Option ℤ :=
  match s.pause_until instrument with
  | none => (s, none)
  | some p =>
    let time_diff := current_time - p
    if time_diff < PAUSE_DURATION_MINUTES then
      (s, some (pyInt (PAUSE_DURATION_MINUTES - time_diff)))
    else
      ({ consecutive_losses := Function.update s.consecutive_losses instrument 0,
         pause_until := Function.update s.pause_until instrument none }, none)

/-- `np.diff(data)`: successive differences. -/
def npDiff : List ℚ → List ℚ
  | a :: b :: rest => (b - a) :: npDiff (b :: rest)
  | _ => []

/-- The Wilder-smoothing loop of `calculate_rsi` (`unified_engine.py`
lines 80-91), one output value per `(data[i-1], data[i])` pair from
`i = period` on. -/
def rsiSmoothLoop (period : ℕ) (avg_up avg_down : ℚ) : List (ℚ × ℚ) → List ℚ
  | [] => []
  | (prev, cur) :: rest =>
    let delta := cur - prev
    let upval := if 0 < delta then delta else 0
    let downval := if 0 < delta then 0 else -delta
    let au := (avg_up * ((period : ℚ) - 1) + upval) / (period : ℚ)
    let ad := (avg_down * ((period : ℚ) - 1) + downval) / (period : ℚ)
    let rs := if ad ≠ 0 then au / ad else 0
    (100 - 100 / (1 + rs)) :: rsiSmoothLoop period au ad rest

/-- `calculate_rsi(data, period)` of `unified_engine.py` (lines 66-92).
Quirks preserved from the source: the seed window is the first `period + 1`
deltas; a zero seeded down-average short-circuits to an all-zero array; the
first `period` slots carry the seeded value. -/
def calculate_rsi (data : List ℚ) (period : ℕ) : List ℚ :=
  if data.length < period + 1 then List.replicate data.length 0
  else
    let deltas := npDiff data
    let seed := deltas.take (period + 1)
    let up := (seed.filter (fun d => decide (0 ≤ d))).sum / (period : ℚ)
    let down := -((seed.filter (fun d => decide (d < 0))).sum) / (period : ℚ)
    if down = 0 then List.replicate data.length 0
    else
      let rs := up / down
      List.replicate period (100 - 100 / (1 + rs)) ++
        rsiSmoothLoop period up down ((data.drop (period - 1)).zip (data.drop period))

/-- The `day_stats` dict of `DayTypeEngine` (fields used by the
classification predicates). -/
structure DayStats where
  open_time : Option ℚ
  first_atr : Option ℚ
  day_high : Option ℚ
  day_low : Option ℚ
  vwap : Option ℚ
  deriving DecidableEq

/-- `day_stats` after `__init__` / `reset_for_new_day` (all `None`). -/
def dayStatsReset : DayStats :=
  { open_time := none, first_atr := none, day_high := none, day_low := none,
    vwap := none }

/-- `DayTypeEngine._calculate_vwap(candles)`: the volume-weighted average
price, falling back to the last close when total volume is 0.  The `[]` case
is unreachable from `classify_day` (its 30-bar guard). -/
def calculate_vwap (candles : List Candle) : ℚ :=
  match candles.getLast? with
  | none => 0
  | some last =>
    let total_vol := (candles.map (·.volume)).sum
    if total_vol = 0 then last.close
    else ((candles.map (fun c => (c.high + c.low + c.close) / 3 * c.volume)).sum) / total_vol

/-- `DayTypeEngine._update_day_stats(candles_5m, indicators)`.  The Python
truthiness tests are preserved: `open_time` is refreshed only from `None`
(a datetime is always truthy), `first_atr` is refreshed from `None` or `0.0`
(both falsy floats).  The `[]` case (IndexError on `candles_5m[0]`) is
unreachable from `classify_day`. -/
def update_day_stats (stats : DayStats) (candles_5m : List Candle) (ind : Indicators) :
    DayStats :=
  match candles_5m with
  | [] => stats
  | c0 :: _ =>
    { open_time := match stats.open_time with
        | none => some c0.date
        | some t => some t
      day_high := some (listMax (candles_5m.map (·.high)))
      day_low := some (listMin (candles_5m.map (·.low)))
      first_atr := match stats.first_atr with
        | none => some ind.atr
        | some a => if a = 0 then some ind.atr else some a
      vwap := some (calculate_vwap candles_5m) }

/-- `DayTypeEngine._is_liquidity_sweep_trap` (`rijin_engine.py` lines
366-400).  Its body dereferences `REGIME_THRESHOLDS`, a name defined nowhere
in the repository; the `NameError` is swallowed by the method's own blanket
`except` returning `False`, so the predicate is constantly false. -/
def is_liquidity_sweep_trap (_c5 : List Candle) (_ind : Indicators) : Bool := false

/-- `DayTypeEngine._is_rotational_expansion` (lines 402-463): same undefined
`REGIME_THRESHOLDS` dereference, same `except` — constantly false. -/
def is_rotational_expansion (_c5 : List Candle) (_ind : Indicators) : Bool := false

/-- `DayTypeEngine._is_fast_regime_flip` (lines 465-511): same undefined
`REGIME_THRESHOLDS` dereference, same `except` — constantly false. -/
def is_fast_regime_flip (_c5 : List Candle) (_ind : Indicators) : Bool := false

/-- Count of RSI crossings of 50 over successive values
(`_is_range_choppy`'s whipsaw counter). -/
def countCrosses50 : List ℚ → ℕ
  | a :: b :: rest =>
    (if (a < 50 ∧ 50 < b) ∨ (50 < a ∧ b < 50) then 1 else 0) + countCrosses50 (b :: rest)
  | _ => 0

/-- Count of mutually-inside bar pairs (`_is_clean_trend`'s overlap counter:
`(curr_h < prev_h and curr_l > prev_l) or (prev_h < curr_h and prev_l > curr_l)`). -/
def countOverlapInside : List Candle → ℕ
  | c1 :: c2 :: rest =>
    (if (c2.high < c1.high ∧ c1.low < c2.low) ∨ (c1.high < c2.high ∧ c2.low < c1.low)
     then 1 else 0) + countOverlapInside (c2 :: rest)
  | _ => 0

/-- The guarded ATR-expansion failure test shared by `_is_clean_trend` and
`_is_normal_trend`: `if self.day_stats['first_atr']:` (None/0.0 falsy), then
fail when `atr / first_atr < threshold`. -/
def atrExpansionFails (first_atr : Option ℚ) (atr threshold : ℚ) : Bool :=
  match first_atr with
  | some fa => if fa = 0 then false else decide (atr / fa < threshold)
  | none => false

/-- `DayTypeEngine._is_range_choppy(c5, c30, ind)` (`rijin_engine.py` lines
308-364).  A `None` vwap or empty candle list raises inside the `try` and
yields `False`; a zero vwap raises `ZeroDivisionError` in the (otherwise
inert) vwap-distance probe, likewise yielding `False`.  The RSI whipsaw
counter recomputes `calculate_rsi` over the prefix ending at the first
occurrence (`c5.index(c)`) of each of the last 10 bars. -/
def is_range_choppy (stats : DayStats) (c5 : List Candle) (_c30 : List Candle)
    (ind : Indicators) : Bool :=
  match stats.vwap, c5.getLast? with
  | some vwap, some _ =>
    if vwap = 0 then false
    else if 1 < |ind.slope| then false
    else
      let rsiValues :=
        if 10 ≤ c5.length then
          (lastN c5 10).filterMap (fun c =>
            let closes := (c5.take (c5.indexOf c + 1)).map (·.close)
            if 14 ≤ closes.length then (calculate_rsi closes 14).getLast? else none)
        else []
      if rsiValues ≠ [] ∧ 3 ≤ countCrosses50 rsiValues then true
      else if atrExpansionFails stats.first_atr ind.atr (7/10) then true
      else false
  | _, _ => false

/-- `DayTypeEngine._is_clean_trend(c5, c30, ind)` (`rijin_engine.py` lines
187-236).  An empty candle list (IndexError on `price`) and a zero `ema20`
(ZeroDivisionError in the EMA-touch test) both fall into the method's
`except` → `False`. -/
def is_clean_trend (stats : DayStats) (c5 : List Candle) (_c30 : List Candle)
    (ind : Indicators) : Bool :=
  match c5.getLast? with
  | none => false
  | some _ =>
    if atrExpansionFails stats.first_atr ind.atr (21/20) then false
    else if ¬(55 < ind.rsi ∨ ind.rsi < 45) then false
    else if 3 < countOverlapInside (lastN c5 10) then false
    else if 20 ≤ c5.length then
      if ind.ema20 = 0 then false
      else
        let recent_prices := (lastN c5 20).map (·.close)
        let ema_touches := (recent_prices.filter
          (fun p => decide (|p - ind.ema20| / ind.ema20 < 1/500))).length
        if ema_touches < 2 then false else true
    else true

/-- `DayTypeEngine._is_normal_trend(c5, c30, ind)` (`rijin_engine.py` lines
238-266): slope at least 0.5 in magnitude, RSI in 40-50 or 50-60, and no
ATR contraction below 0.9 of the session-open ATR. -/
def is_normal_trend (stats : DayStats) (_c5 : List Candle) (_c30 : List Candle)
    (ind : Indicators) : Bool :=
  if |ind.slope| < 1/2 then false
  else if ¬((50 ≤ ind.rsi ∧ ind.rsi ≤ 60) ∨ (40 ≤ ind.rsi ∧ ind.rsi ≤ 50)) then false
  else if atrExpansionFails stats.first_atr ind.atr (9/10) then false
  else true

/-- The guarded big-early-move failure test of `_is_early_impulse_sideways`:
`if self.day_stats['first_atr']:` then fail when
`opening_range < 1.5 * first_atr`. -/
def openingRangeFails (first_atr : Option ℚ) (opening_range : ℚ) : Bool :=
  match first_atr with
  | some fa => if fa = 0 then false else decide (opening_range < 3/2 * fa)
  | none => false

/-- `DayTypeEngine._is_early_impulse_sideways(c5, ind)` (`rijin_engine.py`
lines 268-306).  Bar dates are minutes of the session day, so
`c5[-1]['date'].time() < dtime(11, 0)` is `date < 660`. -/
def is_early_impulse_sideways (stats : DayStats) (c5 : List Candle)
    (ind : Indicators) : Bool :=
  match c5.getLast? with
  | none => false
  | some last =>
    if last.date < 660 then false
    else
      let opening_candles := c5.take (min 10 c5.length)
      let opening_range :=
        listMax (opening_candles.map (·.high)) - listMin (opening_candles.map (·.low))
      if openingRangeFails stats.first_atr opening_range then false
      else if ¬(48 ≤ ind.rsi ∧ ind.rsi ≤ 62) then false
      else
        let recent := lastN c5 20
        let recent_range := listMax (recent.map (·.high)) - listMin (recent.map (·.low))
        if 6/5 * ind.atr < recent_range then false
        else true

/-- Classification reasons returned by `classify_day` (string literals in
the source). -/
inductive ClassifyReason where
  | insufficientData
  | errorInClassification
  | expiryPostNoon
  | choppyPriceAction
  | cleanExpansionPullbacks
  | directionalSlowerExpansion
  | earlyMoveThenCompression
  | defaultClassification
  deriving DecidableEq

/-- `DayTypeEngine.classify_day(candles_5m, candles_30m, indicators,
is_expiry_day)` (`rijin_engine.py` lines 83-149).  `current` is the engine's
`current_day_type` (returned by the `except` path), `now` the wall-clock
time-of-day in minutes (`datetime.now().time()`, only consulted on expiry
days).  The three v3.1 branches would `return
DayType.LIQUIDITY_SWEEP_TRAP` / `.ROTATIONAL_EXPANSION` / `.FAST_REGIME_FLIP`
— names missing from the enum, so those returns would themselves raise
`AttributeError` into the `except` (stale label); they are unreachable since
their predicates are constantly false. -/
def classify_day (current : DayType) (stats : DayStats)
    (candles_5m candles_30m : List Candle) (ind : Indicators)
    (is_expiry_day : Bool) (now : ℚ) : DayType × ClassifyReason × DayStats :=
  if candles_5m.length < 30 then (.UNKNOWN, .insufficientData, stats)
  else
    let stats1 := update_day_stats stats candles_5m ind
    if is_expiry_day = true ∧ 720 < now then (.EXPIRY_DISTORTION, .expiryPostNoon, stats1)
    else if is_liquidity_sweep_trap candles_5m ind then
      (current, .errorInClassification, stats1)
    else if is_range_choppy stats1 candles_5m candles_30m ind then
      (.RANGE_CHOPPY, .choppyPriceAction, stats1)
    else if is_rotational_expansion candles_5m ind then
      (current, .errorInClassification, stats1)
    else if is_fast_regime_flip candles_5m ind then
      (current, .errorInClassification, stats1)
    else if is_clean_trend stats1 candles_5m candles_30m ind then
      (.CLEAN_TREND, .cleanExpansionPullbacks, stats1)
    else if is_normal_trend stats1 candles_5m candles_30m ind then
      (.NORMAL_TREND, .directionalSlowerExpansion, stats1)
    else if is_early_impulse_sideways stats1 candles_5m ind then
      (.EARLY_IMPULSE_SIDEWAYS, .earlyMoveThenCompression, stats1)
    else (.NORMAL_TREND, .defaultClassification, stats1)

/-- A flat 5-minute bar used as a concrete evaluation fixture. -/
def flatBar : Candle :=
  { date := 600, «open» := 100, high := 101, low := 99, close := 100, volume := 1 }

/-- A 30-bar flat session (concrete evaluation fixture). -/
def flatSession : List Candle :=
  [flatBar, flatBar, flatBar, flatBar, flatBar, flatBar, flatBar, flatBar, flatBar, flatBar, flatBar, flatBar, flatBar, flatBar, flatBar, flatBar, flatBar, flatBar, flatBar, flatBar, flatBar, flatBar, flatBar, flatBar, flatBar, flatBar, flatBar, flatBar, flatBar, flatBar]

/-- Concrete indicator fixture: ATR 10, RSI 70, EMA20 100, slope 2. -/
def flatInd : Indicators := { atr := 10, rsi := 70, ema20 := 100, slope := 2 }

lemma update_day_type_severity_le (s : DayTypeState) (nt : DayType) (t : ℚ) :
    hierarchyLevel s.current_day_type ≤
      hierarchyLevel (update_day_type s nt t).1.current_day_type := by
  by_cases hl : s.day_locked = true
  · simp [update_day_type, hl]
  by_cases hu : s.current_day_type = DayType.UNKNOWN
  · simp [update_day_type, hl, hu, hierarchyLevel, DAY_TYPE_HIERARCHY]
  by_cases hle : hierarchyLevel nt ≤ hierarchyLevel s.current_day_type
  · simp [update_day_type, hl, hu, hle]
  by_cases him : nt ∈ IMMEDIATE_DOWNGRADE
  · simp [update_day_type, hl, hu, hle, him]
    omega
  · rcases hp : s.pendingDowngrade with _ | ⟨p, since⟩
    · simp [update_day_type, hl, hu, hle, him, hp]
    · by_cases hpe : p = nt
      · by_cases ht : 50 ≤ t - since
        · simp [update_day_type, hl, hu, hle, him, hp, hpe, ht]
          omega
        · simp [update_day_type, hl, hu, hle, him, hp, hpe, ht]
      · simp [update_day_type, hl, hu, hle, him, hp, hpe]

lemma foldl_dayTypeStep_severity_le (l : List (DayType × ℚ)) (s : DayTypeState) :
    hierarchyLevel s.current_day_type ≤
      hierarchyLevel (l.foldl dayTypeStep s).current_day_type := by
  induction l generalizing s with
  | nil => simp
  | cons e rest ih =>
      exact le_trans (update_day_type_severity_le s e.1 e.2) (ih (dayTypeStep s e))

lemma dayTypeStep_current_cases (s : DayTypeState) (e : DayType × ℚ) :
    (dayTypeStep s e).current_day_type = s.current_day_type ∨
      (dayTypeStep s e).current_day_type = e.1 := by
  by_cases hl : s.day_locked = true
  · simp [dayTypeStep, update_day_type, hl]
  by_cases hu : s.current_day_type = DayType.UNKNOWN
  · simp [dayTypeStep, update_day_type, hl, hu]
  by_cases hle : hierarchyLevel e.1 ≤ hierarchyLevel s.current_day_type
  · simp [dayTypeStep, update_day_type, hl, hu, hle]
  by_cases him : e.1 ∈ IMMEDIATE_DOWNGRADE
  · simp [dayTypeStep, update_day_type, hl, hu, hle, him]
  · rcases hp : s.pendingDowngrade with _ | ⟨p, since⟩
    · simp [dayTypeStep, update_day_type, hl, hu, hle, him, hp]
    · by_cases hpe : p = e.1
      · by_cases ht : 50 ≤ e.2 - since
        · simp [dayTypeStep, update_day_type, hl, hu, hle, him, hp, hpe, ht]
        · simp [dayTypeStep, update_day_type, hl, hu, hle, him, hp, hpe, ht]
      · simp [dayTypeStep, update_day_type, hl, hu, hle, him, hp, hpe]

lemma foldl_dayTypeStep_current_mem (l : List (DayType × ℚ)) (s : DayTypeState)
    (L : DayType) (h : (l.foldl dayTypeStep s).current_day_type = L) :
    L = s.current_day_type ∨ L ∈ l.map Prod.fst := by
  induction l generalizing s with
  | nil => exact Or.inl h.symm
  | cons e rest ih =>
      rcases ih (dayTypeStep s e) h with h1 | h2
      · rcases dayTypeStep_current_cases s e with h3 | h3
        · exact Or.inl (h1.trans h3)
        · exact Or.inr (by simp [h1.trans h3])
      · exact Or.inr (by simp [h2])

lemma flat_stats : update_day_stats dayStatsReset flatSession flatInd =
    { open_time := some 600, first_atr := some 10, day_high := some 101,
      day_low := some 99, vwap := some 100 } := by
  norm_num [update_day_stats, dayStatsReset, flatSession, flatBar, flatInd,
    calculate_vwap, listMax, listMin]

lemma flat_range_choppy : is_range_choppy
    { open_time := some 600, first_atr := some 10, day_high := some 101,
      day_low := some 99, vwap := some 100 } flatSession [] flatInd = false := by
  norm_num [is_range_choppy, flatSession, flatBar, flatInd]

lemma flat_clean_trend : is_clean_trend
    { open_time := some 600, first_atr := some 10, day_high := some 101,
      day_low := some 99, vwap := some 100 } flatSession [] flatInd = false := by
  norm_num [is_clean_trend, atrExpansionFails, flatSession, flatBar, flatInd]

lemma flat_normal_trend : is_normal_trend
    { open_time := some 600, first_atr := some 10, day_high := some 101,
      day_low := some 99, vwap := some 100 } flatSession [] flatInd = false := by
  norm_num [is_normal_trend, atrExpansionFails, flatInd]

lemma flat_early_impulse : is_early_impulse_sideways
    { open_time := some 600, first_atr := some 10, day_high := some 101,
      day_low := some 99, vwap := some 100 } flatSession flatInd = false := by
  norm_num [is_early_impulse_sideways, openingRangeFails, flatSession, flatBar, flatInd]

lemma classify_day_default_branch (current : DayType) (stats : DayStats)
    (c5 c30 : List Candle) (ind : Indicators) (isExp : Bool) (now : ℚ)
    (hlen : ¬ c5.length < 30)
    (hexp : ¬ (isExp = true ∧ 720 < now))
    (hrc : is_range_choppy (update_day_stats stats c5 ind) c5 c30 ind = false)
    (hct : is_clean_trend (update_day_stats stats c5 ind) c5 c30 ind = false)
    (hnt : is_normal_trend (update_day_stats stats c5 ind) c5 c30 ind = false)
    (hei : is_early_impulse_sideways (update_day_stats stats c5 ind) c5 ind = false) :
    classify_day current stats c5 c30 ind isExp now =
      (.NORMAL_TREND, .defaultClassification, update_day_stats stats c5 ind) := by
  simp [classify_day, is_liquidity_sweep_trap, is_rotational_expansion,
    is_fast_regime_flip, hlen, hexp, hrc, hct, hnt, hei]

lemma classify_flat_eval (current : DayType) :
    classify_day current dayStatsReset flatSession [] flatInd false 700 =
      (.NORMAL_TREND, .defaultClassification,
       update_day_stats dayStatsReset flatSession flatInd) := by
  apply classify_day_default_branch
  · norm_num [flatSession]
  · simp
  · rw [flat_stats]; exact flat_range_choppy
  · rw [flat_stats]; exact flat_clean_trend
  · rw [flat_stats]; exact flat_normal_trend
  · rw [flat_stats]; exact flat_early_impulse

/-- C1.  The claim says an immediate-downgrade (terminal) label is applied,
the session is locked, and later calls leave `current_day_type` unchanged.
In the code the immediate-downgrade branch assigns `current_day_type`, then
raises `AttributeError` while evaluating
`[DayType.RANGE_CHOPPY, DayType.LIQUIDITY_SWEEP_TRAP]` (the second is not a
member of the `DayType` enum), so `day_locked` is never set and a later call
with a more severe label still changes `current_day_type`: after an initial
`NORMAL_TREND` classification, `RANGE_CHOPPY` at t=660 raises and leaves
`day_locked = false`, and `VOLATILITY_SPIKE` at t=720 changes the label again. -/
theorem c1_terminal_downgrade_crashes_and_never_locks :
    (update_day_type (update_day_type dayTypeReset .NORMAL_TREND 600).1
        .RANGE_CHOPPY 660).2 = .attrError ∧
    (update_day_type (update_day_type dayTypeReset .NORMAL_TREND 600).1
        .RANGE_CHOPPY 660).1.current_day_type = .RANGE_CHOPPY ∧
    (update_day_type (update_day_type dayTypeReset .NORMAL_TREND 600).1
        .RANGE_CHOPPY 660).1.day_locked = false ∧
    (update_day_type
        (update_day_type (update_day_type dayTypeReset .NORMAL_TREND 600).1
          .RANGE_CHOPPY 660).1 .VOLATILITY_SPIKE 720).1.current_day_type =
      .VOLATILITY_SPIKE := by
  decide

/-- C2.  Within one session (a sequence of `update_day_type` calls from the
reset state), the severity rank of `current_day_type` is non-decreasing over
time; and any call whose proposed label has severity at most the current
label's (once a label is classified) is a no-op that clears the pending
transition and reports no change. -/
theorem c2_severity_monotone_and_no_upgrade :
    (∀ (events : List (DayType × ℚ)) (m n : ℕ), m ≤ n →
        hierarchyLevel (runDayTypeUpdates (events.take m)).current_day_type ≤
          hierarchyLevel (runDayTypeUpdates (events.take n)).current_day_type) ∧
    (∀ (s : DayTypeState) (nt : DayType) (t : ℚ),
        s.day_locked = false → s.current_day_type ≠ .UNKNOWN →
        hierarchyLevel nt ≤ hierarchyLevel s.current_day_type →
        update_day_type s nt t = ({ s with pendingDowngrade := none }, .ok false none)) := by
  constructor
  · intro events m n hmn
    have hsplit : events.take n = events.take m ++ (events.drop m).take (n - m) := by
      have := List.take_add events m (n - m)
      rwa [Nat.add_sub_cancel' hmn] at this
    unfold runDayTypeUpdates
    rw [hsplit, List.foldl_append]
    exact foldl_dayTypeStep_severity_le _ _
  · intro s nt t hl hu hle
    simp [update_day_type, hl, hu, hle]

/-- C2 witness: part 1 at the concrete event list
`[(NORMAL_TREND, 600), (CLEAN_TREND, 660)]` with m = 1, n = 2, and part 2 at a
concrete `NORMAL_TREND` state with a pending `EARLY_IMPULSE_SIDEWAYS`
transition that a `CLEAN_TREND` proposal clears. -/
theorem c2_severity_monotone_and_no_upgrade_witness :
    (hierarchyLevel (runDayTypeUpdates
        ([(DayType.NORMAL_TREND, (600 : ℚ)), (DayType.CLEAN_TREND, 660)].take 1)).current_day_type ≤
      hierarchyLevel (runDayTypeUpdates
        ([(DayType.NORMAL_TREND, (600 : ℚ)), (DayType.CLEAN_TREND, 660)].take 2)).current_day_type) ∧
    update_day_type
        { current_day_type := .NORMAL_TREND, last_check_time := some 600,
          pendingDowngrade := some (.EARLY_IMPULSE_SIDEWAYS, 630), day_locked := false }
        .CLEAN_TREND 700 =
      ({ current_day_type := .NORMAL_TREND, last_check_time := some 600,
         pendingDowngrade := none, day_locked := false }, .ok false none) :=
  ⟨c2_severity_monotone_and_no_upgrade.1 _ 1 2 (by decide),
   c2_severity_monotone_and_no_upgrade.2 _ _ 700 rfl (by decide) (by decide)⟩

/-- C3.  Non-terminal downgrades commit only by confirmation:
(1) proposing the pending label again 50-70 minutes after `pending_since`
commits the transition; (2) over any session, the current label can only
ever become a label that some call actually proposed; (3) proposing a
different (non-terminal, more severe) label replaces the pending transition
without committing the old one; (4) a first proposal (no pending
transition) never commits — it only starts the timer, leaving
`current_day_type` unchanged; (5) re-proposing the pending label less than
50 minutes after `pending_since` changes nothing; (6) conversely, whenever a
non-terminal call changes `current_day_type` at all (outside the initial
`UNKNOWN` classification), the proposed label was already pending since at
least 50 minutes — commits happen only by confirmation. -/
theorem c3_confirmation_downgrade_semantics :
    (∀ (s : DayTypeState) (nt : DayType) (t t0 : ℚ),
        s.day_locked = false → s.current_day_type ≠ .UNKNOWN →
        hierarchyLevel s.current_day_type < hierarchyLevel nt →
        nt ∉ IMMEDIATE_DOWNGRADE →
        s.pendingDowngrade = some (nt, t0) →
        50 ≤ t - t0 → t - t0 ≤ 70 →
        update_day_type s nt t =
          ({ s with current_day_type := nt, last_check_time := some t,
                    pendingDowngrade := none },
           .ok true (some (.confirmedDowngrade nt)))) ∧
    (∀ (events : List (DayType × ℚ)) (L : DayType),
        (runDayTypeUpdates events).current_day_type = L → L ≠ .UNKNOWN →
        L ∈ events.map Prod.fst) ∧
    (∀ (s : DayTypeState) (nt p : DayType) (t t0 : ℚ),
        s.day_locked = false → s.current_day_type ≠ .UNKNOWN →
        hierarchyLevel s.current_day_type < hierarchyLevel nt →
        nt ∉ IMMEDIATE_DOWNGRADE →
        s.pendingDowngrade = some (p, t0) → p ≠ nt →
        update_day_type s nt t =
          ({ s with pendingDowngrade := some (nt, t) }, .ok false none)) ∧
    (∀ (s : DayTypeState) (nt : DayType) (t : ℚ),
        s.day_locked = false → s.current_day_type ≠ .UNKNOWN →
        hierarchyLevel s.current_day_type < hierarchyLevel nt →
        nt ∉ IMMEDIATE_DOWNGRADE →
        s.pendingDowngrade = none →
        update_day_type s nt t =
          ({ s with pendingDowngrade := some (nt, t) }, .ok false none)) ∧
    (∀ (s : DayTypeState) (nt : DayType) (t t0 : ℚ),
        s.day_locked = false → s.current_day_type ≠ .UNKNOWN →
        hierarchyLevel s.current_day_type < hierarchyLevel nt →
        nt ∉ IMMEDIATE_DOWNGRADE →
        s.pendingDowngrade = some (nt, t0) → t - t0 < 50 →
        update_day_type s nt t = (s, .ok false none)) ∧
    (∀ (s : DayTypeState) (nt : DayType) (t : ℚ),
        s.day_locked = false → s.current_day_type ≠ .UNKNOWN →
        nt ∉ IMMEDIATE_DOWNGRADE →
        (update_day_type s nt t).1.current_day_type ≠ s.current_day_type →
        ∃ t0, s.pendingDowngrade = some (nt, t0) ∧ 50 ≤ t - t0) := by
  refine ⟨?_, ?_, ?_, ?_, ?_, ?_⟩
  · intro s nt t t0 hl hu hlt him hp ht _
    have hle : ¬ hierarchyLevel nt ≤ hierarchyLevel s.current_day_type := by omega
    simp [update_day_type, hl, hu, hle, him, hp, ht]
  · intro events L h hL
    rcases foldl_dayTypeStep_current_mem events dayTypeReset L h with h1 | h1
    · exact absurd h1 (by simpa [dayTypeReset] using hL)
    · exact h1
  · intro s nt p t t0 hl hu hlt him hp hne
    have hle : ¬ hierarchyLevel nt ≤ hierarchyLevel s.current_day_type := by omega
    simp [update_day_type, hl, hu, hle, him, hp, hne]
  · intro s nt t hl hu hlt him hp
    have hle : ¬ hierarchyLevel nt ≤ hierarchyLevel s.current_day_type := by omega
    simp [update_day_type, hl, hu, hle, him, hp]
  · intro s nt t t0 hl hu hlt him hp ht
    have hle : ¬ hierarchyLevel nt ≤ hierarchyLevel s.current_day_type := by omega
    simp [update_day_type, hl, hu, hle, him, hp, not_le.mpr ht]
  · intro s nt t hl hu him hch
    by_cases hle : hierarchyLevel nt ≤ hierarchyLevel s.current_day_type
    · exact absurd (by simp [update_day_type, hl, hu, hle]) hch
    rcases hp : s.pendingDowngrade with _ | ⟨p, since⟩
    · exact absurd (by simp [update_day_type, hl, hu, hle, him, hp]) hch
    by_cases hpe : p = nt
    · by_cases ht : 50 ≤ t - since
      · exact ⟨since, by rw [hpe], ht⟩
      · exact absurd (by simp [update_day_type, hl, hu, hle, him, hp, hpe, ht]) hch
    · exact absurd (by simp [update_day_type, hl, hu, hle, him, hp, hpe]) hch

/-- C3 witness: (1) a pending `EARLY_IMPULSE_SIDEWAYS` proposed at t=600 and
re-proposed at t=660 commits; (2) a session proposing only `NORMAL_TREND`
can only end on a proposed label; (3) a different non-terminal proposal at
t=610 replaces the pending one; (4) the first `EARLY_IMPULSE_SIDEWAYS`
proposal at t=610 only starts the timer and leaves the label unchanged;
(5) re-proposing it 10 minutes later changes nothing; (6) the committing
call at t=660 indeed had the label pending for at least 50 minutes. -/
theorem c3_confirmation_downgrade_semantics_witness :
    (update_day_type
        { current_day_type := .NORMAL_TREND, last_check_time := some 600,
          pendingDowngrade := some (.EARLY_IMPULSE_SIDEWAYS, 600), day_locked := false }
        .EARLY_IMPULSE_SIDEWAYS 660 =
      ({ current_day_type := .EARLY_IMPULSE_SIDEWAYS, last_check_time := some 660,
         pendingDowngrade := none, day_locked := false },
       .ok true (some (.confirmedDowngrade .EARLY_IMPULSE_SIDEWAYS)))) ∧
    (DayType.NORMAL_TREND ∈ ([(DayType.NORMAL_TREND, (600 : ℚ))].map Prod.fst)) ∧
    (update_day_type
        { current_day_type := .CLEAN_TREND, last_check_time := some 600,
          pendingDowngrade := some (.NORMAL_TREND, 600), day_locked := false }
        .EARLY_IMPULSE_SIDEWAYS 610 =
      ({ current_day_type := .CLEAN_TREND, last_check_time := some 600,
         pendingDowngrade := some (.EARLY_IMPULSE_SIDEWAYS, 610), day_locked := false },
       .ok false none)) ∧
    (update_day_type
        { current_day_type := .NORMAL_TREND, last_check_time := some 600,
          pendingDowngrade := none, day_locked := false }
        .EARLY_IMPULSE_SIDEWAYS 610 =
      ({ current_day_type := .NORMAL_TREND, last_check_time := some 600,
         pendingDowngrade := some (.EARLY_IMPULSE_SIDEWAYS, 610), day_locked := false },
       .ok false none)) ∧
    (update_day_type
        { current_day_type := .NORMAL_TREND, last_check_time := some 600,
          pendingDowngrade := some (.EARLY_IMPULSE_SIDEWAYS, 600), day_locked := false }
        .EARLY_IMPULSE_SIDEWAYS 610 =
      ({ current_day_type := .NORMAL_TREND, last_check_time := some 600,
         pendingDowngrade := some (.EARLY_IMPULSE_SIDEWAYS, 600), day_locked := false },
       .ok false none)) ∧
    (∃ t0, ({ current_day_type := .NORMAL_TREND, last_check_time := some 600,
              pendingDowngrade := some (.EARLY_IMPULSE_SIDEWAYS, 600),
              day_locked := false } : DayTypeState).pendingDowngrade =
        some (.EARLY_IMPULSE_SIDEWAYS, t0) ∧ 50 ≤ (660 : ℚ) - t0) :=
  ⟨c3_confirmation_downgrade_semantics.1 _ _ 660 600 rfl (by decide) (by decide)
      (by decide) rfl (by norm_num) (by norm_num),
   c3_confirmation_downgrade_semantics.2.1 [(DayType.NORMAL_TREND, (600 : ℚ))] _
      (by decide) (by decide),
   c3_confirmation_downgrade_semantics.2.2.1 _ _ _ 610 600 rfl (by decide) (by decide)
      (by decide) rfl (by decide),
   c3_confirmation_downgrade_semantics.2.2.2.1 _ _ 610 rfl (by decide) (by decide)
      (by decide) rfl,
   c3_confirmation_downgrade_semantics.2.2.2.2.1 _ _ 610 600 rfl (by decide) (by decide)
      (by decide) rfl (by norm_num),
   c3_confirmation_downgrade_semantics.2.2.2.2.2 _ .EARLY_IMPULSE_SIDEWAYS 660 rfl
      (by decide) (by decide)
      (by norm_num [update_day_type, hierarchyLevel, DAY_TYPE_HIERARCHY,
        IMMEDIATE_DOWNGRADE]; decide)⟩

/-- C10.  While `current_day_type` is still `UNKNOWN`, the first
`update_day_type` call commits any proposed label immediately and
unconditionally — no severity comparison, no confirmation delay — and does
not lock the session, even for a terminal (immediate-downgrade) label. -/
theorem c10_first_classification_unconditional (s : DayTypeState) (nt : DayType) (t : ℚ)
    (hl : s.day_locked = false) (hu : s.current_day_type = .UNKNOWN) :
    update_day_type s nt t =
      ({ s with current_day_type := nt, last_check_time := some t },
       .ok true (some (.initialClassification nt))) ∧
    (update_day_type s nt t).1.day_locked = false := by
  constructor
  · simp [update_day_type, hl, hu]
  · simp [update_day_type, hl, hu]

/-- C10 witness: the first call on a fresh session with the terminal label
`RANGE_CHOPPY` commits it, reports the initial classification, and leaves the
session unlocked. -/
theorem c10_first_classification_unconditional_witness :
    update_day_type dayTypeReset .RANGE_CHOPPY 600 =
      ({ dayTypeReset with current_day_type := .RANGE_CHOPPY, last_check_time := some 600 },
       .ok true (some (.initialClassification .RANGE_CHOPPY))) ∧
    (update_day_type dayTypeReset .RANGE_CHOPPY 600).1.day_locked = false :=
  c10_first_classification_unconditional dayTypeReset .RANGE_CHOPPY 600 rfl rfl

/-- C9.  For an active impulse state, `get_expansion_from_impulse(price)` is
`|price − origin| / volatility_at_impulse`; it is monotone in
`|price − origin|` (for nonnegative volatility), doubling the volatility
halves the expansion at the same price, and with no active impulse it is 0
for every price. -/
theorem c9_expansion_from_impulse_properties :
    (∀ (e : ImpulseState) (o a p : ℚ),
        e.impulse_origin = some o → e.impulse_atr = some a →
        get_expansion_from_impulse e p = |p - o| / a) ∧
    (∀ (e : ImpulseState) (o a p1 p2 : ℚ),
        e.impulse_origin = some o → e.impulse_atr = some a → 0 ≤ a →
        |p1 - o| ≤ |p2 - o| →
        get_expansion_from_impulse e p1 ≤ get_expansion_from_impulse e p2) ∧
    (∀ (e e2 : ImpulseState) (o a p : ℚ),
        e.impulse_origin = some o → e.impulse_atr = some a →
        e2.impulse_origin = some o → e2.impulse_atr = some (2 * a) →
        get_expansion_from_impulse e2 p = get_expansion_from_impulse e p / 2) ∧
    (∀ (e : ImpulseState) (p : ℚ), is_impulse_active e = false →
        get_expansion_from_impulse e p = 0) := by
  refine ⟨?_, ?_, ?_, ?_⟩
  · intro e o a p ho ha
    simp [get_expansion_from_impulse, ho, ha]
  · intro e o a p1 p2 ho ha hnn hle
    simp only [get_expansion_from_impulse, ho, ha]
    exact div_le_div_of_nonneg_right hle hnn
  · intro e e2 o a p ho ha ho2 ha2
    simp only [get_expansion_from_impulse, ho, ha, ho2, ha2]
    rw [div_div, mul_comm a 2]
  · intro e p hne
    have : e.impulse_origin = none := by
      simpa [is_impulse_active] using hne
    simp [get_expansion_from_impulse, this]

/-- C9 witness: origin 100, volatility 10 — expansion at price 130 is 3;
monotone between prices 120 and 130; doubling volatility to 20 halves the
expansion; a fresh (inactive) impulse state yields 0. -/
theorem c9_expansion_from_impulse_properties_witness :
    get_expansion_from_impulse
        { impulse_origin := some 100, impulse_atr := some 10,
          impulse_direction := some .BUY, impulse_time := some 600,
          swing_high := none, swing_low := none } 130 = |(130 : ℚ) - 100| / 10 ∧
    get_expansion_from_impulse
        { impulse_origin := some 100, impulse_atr := some 10,
          impulse_direction := some .BUY, impulse_time := some 600,
          swing_high := none, swing_low := none } 120 ≤
      get_expansion_from_impulse
        { impulse_origin := some 100, impulse_atr := some 10,
          impulse_direction := some .BUY, impulse_time := some 600,
          swing_high := none, swing_low := none } 130 ∧
    get_expansion_from_impulse
        { impulse_origin := some 100, impulse_atr := some (2 * 10),
          impulse_direction := some .BUY, impulse_time := some 600,
          swing_high := none, swing_low := none } 130 =
      get_expansion_from_impulse
        { impulse_origin := some 100, impulse_atr := some 10,
          impulse_direction := some .BUY, impulse_time := some 600,
          swing_high := none, swing_low := none } 130 / 2 ∧
    get_expansion_from_impulse
        { impulse_origin := none, impulse_atr := none, impulse_direction := none,
          impulse_time := none, swing_high := none, swing_low := none } 55 = 0 :=
  ⟨c9_expansion_from_impulse_properties.1 _ 100 10 130 rfl rfl,
   c9_expansion_from_impulse_properties.2.1 _ 100 10 120 130 rfl rfl (by norm_num)
      (by norm_num),
   c9_expansion_from_impulse_properties.2.2.1 _ _ 100 10 130 rfl rfl rfl rfl,
   c9_expansion_from_impulse_properties.2.2.2 _ 55 rfl⟩

/-- C8.  The phase classifier partitions every expansion value by the two
thresholds (<1.2 EARLY, 1.2-2.0 MID, >2.0 LATE); an EARLY phase is
unconditionally admitted; a LATE phase is unconditionally rejected with the
late-cycle reason; and with no active impulse the filter returns the neutral
allow with the `NO_IMPULSE` marker and expansion 0. -/
theorem c8_phase_classifier_and_filter :
    (∀ e : ℚ, (get_phase e = .EARLY ↔ e < 6/5) ∧
        (get_phase e = .MID ↔ 6/5 ≤ e ∧ e ≤ 2) ∧
        (get_phase e = .LATE ↔ 2 < e)) ∧
    (∀ (candles : List Candle) (ind : Indicators) (dir : Direction)
        (imp : ImpulseState) (last : Candle),
        candles.getLast? = some last → is_impulse_active imp = true →
        get_phase (get_expansion_from_impulse imp last.close) = .EARLY →
        is_mode_f_allowed candles ind dir (some imp) =
          (true, none, .EARLY, get_expansion_from_impulse imp last.close)) ∧
    (∀ (candles : List Candle) (ind : Indicators) (dir : Direction)
        (imp : ImpulseState) (last : Candle),
        candles.getLast? = some last → is_impulse_active imp = true →
        get_phase (get_expansion_from_impulse imp last.close) = .LATE →
        is_mode_f_allowed candles ind dir (some imp) =
          (false, some (.latePhaseExhaustion (get_expansion_from_impulse imp last.close)),
           .LATE, get_expansion_from_impulse imp last.close)) ∧
    (∀ (candles : List Candle) (ind : Indicators) (dir : Direction)
        (imp : Option ImpulseState), impulse_engine_active imp = false →
        is_mode_f_allowed candles ind dir imp = (true, none, .NO_IMPULSE, 0)) := by
  refine ⟨?_, ?_, ?_, ?_⟩
  · intro e
    unfold get_phase EARLY_MAX_EXPANSION_ATR MID_MAX_EXPANSION_ATR
    split_ifs with h1 h2
    · exact ⟨iff_of_true rfl h1,
             iff_of_false (by decide) (fun h => absurd h.1 (not_le.mpr h1)),
             iff_of_false (by decide) (by intro h; linarith)⟩
    · exact ⟨iff_of_false (by decide) h1,
             iff_of_true rfl ⟨not_lt.mp h1, h2⟩,
             iff_of_false (by decide) (fun h => absurd h2 (not_le.mpr h))⟩
    · exact ⟨iff_of_false (by decide) h1,
             iff_of_false (by decide) (fun h => h2 h.2),
             iff_of_true rfl (not_le.mp h2)⟩
  · intro candles ind dir imp last hlast hact hph
    simp [is_mode_f_allowed, hact, hlast, hph]
  · intro candles ind dir imp last hlast hact hph
    simp [is_mode_f_allowed, hact, hlast, hph]
  · intro candles ind dir imp hact
    match imp with
    | none => simp [is_mode_f_allowed]
    | some e =>
      have : is_impulse_active e = false := by simpa [impulse_engine_active] using hact
      simp [is_mode_f_allowed, this]

/-- C8 witness: threshold partition at expansion 1; EARLY admission at price
105 (expansion 0.5); LATE rejection at price 130 (expansion 3); neutral allow
with no impulse engine.  The impulse fixture has origin 100 and
volatility-at-impulse 10. -/
theorem c8_phase_classifier_and_filter_witness :
    (get_phase 1 = .EARLY ↔ (1 : ℚ) < 6/5) ∧
    is_mode_f_allowed [⟨600, 104, 106, 103, 105, 1⟩] ⟨10, 60, 100, 1⟩ .BUY
        (some ⟨some 100, some 10, some .BUY, some 595, none, none⟩) =
      (true, none, .EARLY,
        get_expansion_from_impulse ⟨some 100, some 10, some .BUY, some 595, none, none⟩ 105) ∧
    is_mode_f_allowed [⟨600, 129, 131, 128, 130, 1⟩] ⟨10, 60, 100, 1⟩ .BUY
        (some ⟨some 100, some 10, some .BUY, some 595, none, none⟩) =
      (false,
       some (.latePhaseExhaustion
         (get_expansion_from_impulse ⟨some 100, some 10, some .BUY, some 595, none, none⟩ 130)),
       .LATE,
       get_expansion_from_impulse ⟨some 100, some 10, some .BUY, some 595, none, none⟩ 130) ∧
    is_mode_f_allowed [] ⟨10, 60, 100, 1⟩ .SELL none = (true, none, .NO_IMPULSE, 0) :=
  ⟨(c8_phase_classifier_and_filter.1 1).1,
   c8_phase_classifier_and_filter.2.1 [⟨600, 104, 106, 103, 105, 1⟩] ⟨10, 60, 100, 1⟩
     .BUY ⟨some 100, some 10, some .BUY, some 595, none, none⟩ ⟨600, 104, 106, 103, 105, 1⟩
     rfl rfl
     (by norm_num [get_phase, get_expansion_from_impulse, EARLY_MAX_EXPANSION_ATR]),
   c8_phase_classifier_and_filter.2.2.1 [⟨600, 129, 131, 128, 130, 1⟩] ⟨10, 60, 100, 1⟩
     .BUY ⟨some 100, some 10, some .BUY, some 595, none, none⟩ ⟨600, 129, 131, 128, 130, 1⟩
     rfl rfl
     (by norm_num [get_phase, get_expansion_from_impulse, EARLY_MAX_EXPANSION_ATR,
        MID_MAX_EXPANSION_ATR]),
   c8_phase_classifier_and_filter.2.2.2 [] ⟨10, 60, 100, 1⟩ .SELL none rfl⟩

/-- C4.  The claim says gate 1 rejects exactly when the expansion from the
impulse origin exceeds 1.5.  In the code, the impulse-active branch evaluates
`hasattr(self, '_day_type_override')` inside a staticmethod; the `NameError`
is swallowed by the blanket `except` ("allow on error"), so the gate allows
even a move whose expansion (3.0, origin 100, volatility 10, price 130) is
far beyond the 1.5 threshold. -/
theorem c4_gate1_allows_exhausted_impulse_move :
    is_impulse_active ⟨some 100, some 10, some .BUY, some 595, none, none⟩ = true ∧
    get_expansion_from_impulse ⟨some 100, some 10, some .BUY, some 595, none, none⟩ 130 = 3 ∧
    EXHAUSTION_ATR_MULTIPLE < 3 ∧
    gate_1_move_exhaustion [⟨600, 129, 131, 99, 130, 1⟩] ⟨10, 60, 100, 1⟩ .BUY
        (some ⟨some 100, some 10, some .BUY, some 595, none, none⟩) = (true, none) := by
  refine ⟨rfl, by norm_num [get_expansion_from_impulse],
    by norm_num [EXHAUSTION_ATR_MULTIPLE], ?_⟩
  rfl

/-- C6.  The claim says `check_stop_conditions` reports a stop when the
consecutive-block counter reaches 3, or the day type is terminal, etc.
In the code, whenever the manager is not already stopped, the very first
trigger test evaluates `[DayType.RANGE_CHOPPY, DayType.LIQUIDITY_SWEEP_TRAP]`
and raises `AttributeError` (the name is not an enum member), so the call
crashes instead of reporting a stop and `stopped` remains `False`: here with
3 registered blocks, and also with a terminal `RANGE_CHOPPY` day type on a
fresh manager. -/
theorem c6_stop_check_raises_instead_of_stopping :
    (register_block (register_block (register_block systemStopReset))).consecutive_blocks = 3 ∧
    STOP_CONSECUTIVE_BLOCKS ≤ 3 ∧
    check_stop_conditions
        (register_block (register_block (register_block systemStopReset))) .CLEAN_TREND =
      (register_block (register_block (register_block systemStopReset)), .attrError) ∧
    (register_block (register_block (register_block systemStopReset))).stopped = false ∧
    check_stop_conditions systemStopReset .RANGE_CHOPPY = (systemStopReset, .attrError) := by
  decide

/-- C7.  The consecutive-loss breaker: (1) exactly 2 stop-loss closes in a
row set the pause start to the second close's time (the first sets no pause);
(2) an interleaved winning close resets the counter, so SL-win-SL ends at
counter 1 with no pause; (3) while fewer than 60 minutes have passed since
the pause start, every candidate entry for the instrument is rejected with
the truncated remaining minutes reported; (4) once 60 minutes have elapsed,
the check clears the pause and resets the counter to 0. -/
theorem c7_consecutive_loss_breaker :
    (∀ (s : LossBreakerState) (i : Instrument) (t1 t2 : ℚ),
        s.consecutive_losses i = 0 → s.pause_until i = none →
        (update_consecutive_loss_tracking s i .SL t1).consecutive_losses i = 1 ∧
        (update_consecutive_loss_tracking s i .SL t1).pause_until i = none ∧
        (update_consecutive_loss_tracking
            (update_consecutive_loss_tracking s i .SL t1) i .SL t2).consecutive_losses i = 2 ∧
        (update_consecutive_loss_tracking
            (update_consecutive_loss_tracking s i .SL t1) i .SL t2).pause_until i = some t2) ∧
    (∀ (s : LossBreakerState) (i : Instrument) (t1 t2 t3 : ℚ),
        s.consecutive_losses i = 0 → s.pause_until i = none →
        (update_consecutive_loss_tracking (update_consecutive_loss_tracking
            (update_consecutive_loss_tracking s i .SL t1) i .TARGET t2)
            i .SL t3).consecutive_losses i = 1 ∧
        (update_consecutive_loss_tracking (update_consecutive_loss_tracking
            (update_consecutive_loss_tracking s i .SL t1) i .TARGET t2)
            i .SL t3).pause_until i = none) ∧
    (∀ (s : LossBreakerState) (i : Instrument) (now p : ℚ),
        s.pause_until i = some p → now - p < PAUSE_DURATION_MINUTES →
        consecutive_loss_protection_check s i now =
          (s, some (pyInt (PAUSE_DURATION_MINUTES - (now - p))))) ∧
    (∀ (s : LossBreakerState) (i : Instrument) (now p : ℚ),
        s.pause_until i = some p → PAUSE_DURATION_MINUTES ≤ now - p →
        (consecutive_loss_protection_check s i now).1.consecutive_losses i = 0 ∧
        (consecutive_loss_protection_check s i now).1.pause_until i = none ∧
        (consecutive_loss_protection_check s i now).2 = none) := by
  refine ⟨?_, ?_, ?_, ?_⟩
  · intro s i t1 t2 h0 hp
    simp [update_consecutive_loss_tracking, MAX_CONSECUTIVE_LOSSES, Function.update,
      h0, hp]
  · intro s i t1 t2 t3 h0 hp
    simp [update_consecutive_loss_tracking, MAX_CONSECUTIVE_LOSSES, RESET_ON_WIN,
      Function.update, h0, hp]
  · intro s i now p hp ht
    simp [consecutive_loss_protection_check, hp, ht]
  · intro s i now p hp ht
    simp [consecutive_loss_protection_check, hp, not_lt.mpr ht, Function.update]

/-- C7 witness: on NIFTY from the reset state — stop-losses at t=600 and
t=650 trigger the pause at 650; SL-win-SL leaves counter 1 and no pause; a
check 30 minutes into a pause started at 700 rejects with 30 minutes
remaining; a check 60 minutes after the start clears it. -/
theorem c7_consecutive_loss_breaker_witness :
    ((update_consecutive_loss_tracking
        (update_consecutive_loss_tracking lossBreakerReset "NIFTY" .SL 600)
        "NIFTY" .SL 650).pause_until "NIFTY" = some 650) ∧
    ((update_consecutive_loss_tracking (update_consecutive_loss_tracking
        (update_consecutive_loss_tracking lossBreakerReset "NIFTY" .SL 600)
        "NIFTY" .TARGET 620) "NIFTY" .SL 650).consecutive_losses "NIFTY" = 1) ∧
    (consecutive_loss_protection_check
        { consecutive_losses := fun _ => 2, pause_until := fun _ => some 700 }
        "NIFTY" 730 =
      ({ consecutive_losses := fun _ => 2, pause_until := fun _ => some 700 },
       some (pyInt (PAUSE_DURATION_MINUTES - ((730 : ℚ) - 700))))) ∧
    (pyInt (PAUSE_DURATION_MINUTES - ((730 : ℚ) - 700)) = 30) ∧
    ((consecutive_loss_protection_check
        { consecutive_losses := fun _ => 2, pause_until := fun _ => some 700 }
        "NIFTY" 760).1.pause_until "NIFTY" = none) :=
  ⟨(c7_consecutive_loss_breaker.1 lossBreakerReset "NIFTY" 600 650 rfl rfl).2.2.2,
   (c7_consecutive_loss_breaker.2.1 lossBreakerReset "NIFTY" 600 620 650 rfl rfl).1,
   c7_consecutive_loss_breaker.2.2.1 _ "NIFTY" 730 700 rfl (by norm_num [PAUSE_DURATION_MINUTES]),
   by norm_num [pyInt, PAUSE_DURATION_MINUTES],
   (c7_consecutive_loss_breaker.2.2.2 _ "NIFTY" 760 700 rfl
     (by norm_num [PAUSE_DURATION_MINUTES])).2.1⟩

/-- C5 counterexample.  The claim says the no-predicate-matched default is
the least severe label.  On a concrete 30-bar session where no regime
predicate matches, `classify_day` returns `NORMAL_TREND` with the explicit
"Default classification" reason — but the least severe label in
`DAY_TYPE_HIERARCHY` is `CLEAN_TREND` (rank 1 < 2), so the returned label is
not the least severe one. -/
theorem c5_default_label_not_least_severe :
    (classify_day .RANGE_CHOPPY dayStatsReset flatSession [] flatInd false 700).1 =
      .NORMAL_TREND ∧
    (classify_day .RANGE_CHOPPY dayStatsReset flatSession [] flatInd false 700).2.1 =
      .defaultClassification ∧
    hierarchyLevel .CLEAN_TREND < hierarchyLevel .NORMAL_TREND :=
  ⟨by rw [classify_flat_eval], by rw [classify_flat_eval], by decide⟩

/-- C5 (amended).  When no regime predicate matches in `classify_day` (at
least 30 bars, not the expiry-past-noon case), the classifier returns
`NORMAL_TREND` — the fallback label, severity 2, one rank above the least
severe `CLEAN_TREND` — with the explicit "Default classification" reason,
and the result is the same for every current label (no silent reuse of a
stale label). -/
theorem c5_default_classification_is_normal_trend (current : DayType) (stats : DayStats)
    (c5 c30 : List Candle) (ind : Indicators) (isExp : Bool) (now : ℚ)
    (hlen : ¬ c5.length < 30)
    (hexp : ¬ (isExp = true ∧ 720 < now))
    (hrc : is_range_choppy (update_day_stats stats c5 ind) c5 c30 ind = false)
    (hct : is_clean_trend (update_day_stats stats c5 ind) c5 c30 ind = false)
    (hnt : is_normal_trend (update_day_stats stats c5 ind) c5 c30 ind = false)
    (hei : is_early_impulse_sideways (update_day_stats stats c5 ind) c5 ind = false) :
    classify_day current stats c5 c30 ind isExp now =
      (.NORMAL_TREND, .defaultClassification, update_day_stats stats c5 ind) :=
  classify_day_default_branch current stats c5 c30 ind isExp now hlen hexp hrc hct hnt hei

/-- C5 witness: the amended theorem applied at the concrete flat session
(with the stale current label `EXPIRY_DISTORTION`), all predicate
hypotheses discharged by evaluation. -/
theorem c5_default_classification_is_normal_trend_witness :
    classify_day .EXPIRY_DISTORTION dayStatsReset flatSession [] flatInd false 700 =
      (.NORMAL_TREND, .defaultClassification,
       update_day_stats dayStatsReset flatSession flatInd) :=
  c5_default_classification_is_normal_trend .EXPIRY_DISTORTION dayStatsReset
    flatSession [] flatInd false 700 (by norm_num [flatSession]) (by simp)
    (flat_stats ▸ flat_range_choppy) (flat_stats ▸ flat_clean_trend)
    (flat_stats ▸ flat_normal_trend) (flat_stats ▸ flat_early_impulse)

end Rijin
